import Mathlib

/-!
Verification of the SelfieBooth capture-and-composite pipeline.

This file is a shallow embedding, over the rationals, of the geometry and
control flow of the repository's capture pipeline:

* `getCoverRect` and `captureFrame` from `src/services/cameraService.js`
  (the current service file), called the "v1 service" below;
* the variant `captureFrame` from the unnamed evolutionary snapshot of the
  same service (`part_002`), called the "v2 service" below;
* the crop / zoom / mirror geometry of `captureImage` in the single-file app
  snapshot (`part_000`);
* `getCaptureDimensions` and the capture click handler of the
  `CaptureScreen` component (`part_001`);
* the camera `initialize` logic (modelled as `initializeCamera`) with its
  overconstrained retry and its concurrent-call guard;
* the IndexedDB `StorageService` session bookkeeping
  (`createSession` / `savePhoto` / `deletePhoto`).

JavaScript numbers are modelled as `ℚ` (exact arithmetic) or `ℤ`/`ℕ` where
the code only ever holds integers; JavaScript truthiness of a number is
"not equal to zero", captured by the `jsOr*` helpers below.
-/

/-- JavaScript `a || b` on numbers held as rationals: `a` when truthy
(non-zero), else `b`. -/
def jsOrQ (a b : ℚ) : ℚ := if a = 0 then b else a

/-- JavaScript `a || b` on numbers held as integers. -/
def jsOrInt (a b : ℤ) : ℤ := if a = 0 then b else a

/-- JavaScript `a || b` on numbers held as naturals. -/
def jsOrNat (a b : ℕ) : ℕ := if a = 0 then b else a

/-- JavaScript `Math.round` on a non-negative rational: floor of `q + 1/2`,
truncated to a natural number. -/
def jsRound (q : ℚ) : ℕ := (⌊q + 1 / 2⌋).toNat

/-! ## Cover-fit crop geometry (v1 service `getCoverRect`, lines 252-268) -/

/-- The source-rectangle record `{sx, sy, sWidth, sHeight}` returned by
`getCoverRect` in `cameraService.js`. -/
structure CoverRect where
  sx : ℚ
  sy : ℚ
  sWidth : ℚ
  sHeight : ℚ
deriving Repr, DecidableEq

/-- The function `getCoverRect(srcWidth, srcHeight, dstWidth, dstHeight)`
from `cameraService.js`: returns `null` when the source dimensions are falsy,
otherwise the centered cover-fit source rectangle. -/
def getCoverRect (srcWidth srcHeight dstWidth dstHeight : ℚ) : Option CoverRect :=
  if srcWidth = 0 ∨ srcHeight = 0 then
    none
  else
    let srcAspect := srcWidth / srcHeight
    let dstAspect := dstWidth / dstHeight
    if srcAspect > dstAspect then
      let sWidth := srcHeight * dstAspect
      let sx := (srcWidth - sWidth) / 2
      some ⟨sx, 0, sWidth, srcHeight⟩
    else
      let sHeight := srcWidth / dstAspect
      let sy := (srcHeight - sHeight) / 2
      some ⟨0, sy, srcWidth, sHeight⟩

/-! ## Crop and zoom geometry of `captureImage` (part_000, lines 265-293) -/

/-- A source-space rectangle `(x, y, w, h)`, as computed by steps 4 and 5 of
`captureImage` in the single-file app snapshot. -/
structure DrawRect where
  x : ℚ
  y : ℚ
  w : ℚ
  h : ℚ
deriving Repr, DecidableEq

/-- Step 4 of `captureImage` (part_000 lines 269-286): the cover crop of a
`sourceWidth × sourceHeight` source against a `frameWidth × frameHeight`
target.  `targetAspect` and `sourceAspect` are named `targetRatio` and
`sourceRatio` in the JavaScript. -/
def coverCrop (sourceWidth sourceHeight frameWidth frameHeight : ℚ) : DrawRect :=
  let targetAspect := frameWidth / frameHeight
  let sourceAspect := sourceWidth / sourceHeight
  if sourceAspect > targetAspect then
    let drawHeight := sourceHeight
    let drawWidth := sourceHeight * targetAspect
    ⟨(sourceWidth - drawWidth) / 2, 0, drawWidth, drawHeight⟩
  else
    let drawWidth := sourceWidth
    let drawHeight := sourceWidth / targetAspect
    ⟨0, (sourceHeight - drawHeight) / 2, drawWidth, drawHeight⟩

/-- Step 5 of `captureImage` (part_000 lines 288-293): digital zoom shrinks
the crop rectangle by the zoom factor and re-centers it inside the original
crop rectangle. -/
def applyZoom (r : DrawRect) (zoomScale : ℚ) : DrawRect :=
  let zoomedWidth := r.w / zoomScale
  let zoomedHeight := r.h / zoomScale
  ⟨r.x + (r.w - zoomedWidth) / 2, r.y + (r.h - zoomedHeight) / 2,
    zoomedWidth, zoomedHeight⟩

/-! ## Elements, pixel sources and draw commands -/

/-- The `tagName` of a DOM element relevant to the capture paths. -/
inductive Tag where
  | video
  | img
  | canvasEl
  | other
deriving Repr, DecidableEq

/-- The fields of a DOM element that the capture code reads.  Fields that a
given element kind does not carry are `0` (JavaScript `undefined` is falsy,
like `0`, in every read the code performs). -/
structure Element where
  tag : Tag
  videoWidth : ℚ := 0
  videoHeight : ℚ := 0
  naturalWidth : ℚ := 0
  naturalHeight : ℚ := 0
  width : ℚ := 0
  height : ℚ := 0
deriving Repr, DecidableEq

/-- The helper `getSourceSize(element)` from the service files: `videoWidth/videoHeight`
for a `VIDEO` element, `naturalWidth || width` / `naturalHeight || height`
for an `IMG` element, `width/height` otherwise.  (Defined in both service
versions; only the v2 draw path consumes it.) -/
def getSourceSize (element : Element) : ℚ × ℚ :=
  match element.tag with
  | .video => (element.videoWidth, element.videoHeight)
  | .img => (jsOrQ element.naturalWidth element.width,
             jsOrQ element.naturalHeight element.height)
  | _ => (element.width, element.height)

/-- The intrinsic pixel size of an element: the source rectangle that the
5-argument `ctx.drawImage(el, dx, dy, dw, dh)` call implicitly uses (the
whole element, stretched into the destination rectangle). -/
def intrinsicSize (element : Element) : ℚ × ℚ :=
  match element.tag with
  | .video => (element.videoWidth, element.videoHeight)
  | .img => (element.naturalWidth, element.naturalHeight)
  | _ => (element.width, element.height)

/-- Whether a tag is `VIDEO` (the `source.tagName === 'VIDEO'` check). -/
def tagIsVideo : Tag → Bool
  | .video => true
  | _ => false

/-- Where the pixels composited into the output canvas come from: a still
freshly fetched from a URL, or an element already in the document. -/
inductive PixelSource where
  | fetchedStill (url : String)
  | element (el : Element)
deriving Repr, DecidableEq

/-- The single background draw a `captureFrame` call issues: pixel source,
whether the horizontal mirror transform was installed, the source rectangle
`(sx, sy, sWidth, sHeight)` and the destination size (the destination
rectangle is always the full canvas at the origin). -/
structure DrawCommand where
  source : PixelSource
  mirrored : Bool
  sx : ℚ
  sy : ℚ
  sWidth : ℚ
  sHeight : ℚ
  dWidth : ℚ
  dHeight : ℚ
deriving Repr, DecidableEq

/-- The failure exits of `captureFrame` (both service versions). -/
inductive CaptureError where
  | captureSizeMissing
  | snapshotLoadFailed
  | ipElementMissing
  | sourceElementMissing
deriving Repr, DecidableEq

/-- The `CAMERA_CONFIG` values `captureFrame` and the camera lifecycle read. -/
structure CameraConfig where
  useIPCamera : Bool
  ipCameraUrl : Option String
  ipCameraSnapshot : Option String
deriving Repr, DecidableEq

/-- The environment one `captureFrame` call observes: the `.camera-stream`
element `document.querySelector` finds (if any), whether the snapshot image
load succeeds, the fetched snapshot's natural size, and `Date.now()`. -/
structure CaptureEnv where
  liveStreamImg : Option Element
  snapshotLoadOk : Bool
  snapshotNaturalWidth : ℚ
  snapshotNaturalHeight : ℚ
  now : ℕ
deriving Repr, DecidableEq

/-! ## v1 service `captureFrame` (cameraService.js lines 235-382) -/

/-- The common draw path of the v1 `captureFrame` (lines 338-377): the
mirror transform is installed only when not in IP-camera mode and the
source is a `VIDEO` element, then the whole source is stretched into the
target canvas by `ctx.drawImage(source, 0, 0, canvas.width, canvas.height)`. -/
def commonDraw (isIPCamera : Bool) (el : Element)
    (targetWidth targetHeight : ℚ) : DrawCommand :=
  { source := .element el
    mirrored := !isIPCamera && tagIsVideo el.tag
    sx := 0, sy := 0
    sWidth := (intrinsicSize el).1
    sHeight := (intrinsicSize el).2
    dWidth := targetWidth
    dHeight := targetHeight }

/-- The method `captureFrame(sourceElement, targetWidth, targetHeight)` from
`cameraService.js` (v1), modelled as the background draw command it issues.
With an IP camera and a configured snapshot URL it fetches
`snapshotUrl + '?t=' + Date.now()` and stretches the loaded still into the
canvas with no mirror; with no snapshot URL it falls back to the live
`.camera-stream` element; otherwise it draws the provided source element
through the common path.  `getSourceSize` and `getCoverRect` are declared
in this file of the source but not consumed by any draw here. -/
def captureFrame (cfg : CameraConfig) (isIPCamera : Bool) (env : CaptureEnv)
    (sourceElement : Option Element) (targetWidth targetHeight : ℚ) :
    Except CaptureError DrawCommand :=
  if targetWidth = 0 ∨ targetHeight = 0 then
    .error .captureSizeMissing
  else if isIPCamera then
    match cfg.ipCameraSnapshot with
    | some snapshotUrl =>
        if env.snapshotLoadOk then
          .ok { source := .fetchedStill (snapshotUrl ++ "?t=" ++ toString env.now)
                mirrored := false
                sx := 0, sy := 0
                sWidth := env.snapshotNaturalWidth
                sHeight := env.snapshotNaturalHeight
                dWidth := targetWidth
                dHeight := targetHeight }
        else
          .error .snapshotLoadFailed
    | none =>
        match env.liveStreamImg with
        | some el => .ok (commonDraw isIPCamera el targetWidth targetHeight)
        | none => .error .ipElementMissing
  else
    match sourceElement with
    | some el => .ok (commonDraw isIPCamera el targetWidth targetHeight)
    | none => .error .sourceElementMissing

/-! ## v2 service `captureFrame` (part_002 lines 265-467) -/

/-- The inline crop-to-cover computation for a local `VIDEO` source in the
v2 service (part_002 lines 398-412): same center-crop formula as
`getCoverRect`, with no falsy-size guard. -/
def videoCoverCrop (srcWidth srcHeight dstWidth dstHeight : ℚ) : CoverRect :=
  let srcAspect := srcWidth / srcHeight
  let dstAspect := dstWidth / dstHeight
  if srcAspect > dstAspect then
    let cropWidth := srcHeight * dstAspect
    ⟨(srcWidth - cropWidth) / 2, 0, cropWidth, srcHeight⟩
  else
    let cropHeight := srcWidth / dstAspect
    ⟨0, (srcHeight - cropHeight) / 2, srcWidth, cropHeight⟩

/-- The common draw path of the v2 `captureFrame` (part_002 lines 389-437):
a local `VIDEO` source is mirrored and drawn from its inline cover-crop
rectangle; any other source is drawn unmirrored from its `getCoverRect`
rectangle, stretching the whole source only when `getCoverRect` is `null`. -/
def commonDrawV2 (isIPCamera : Bool) (el : Element)
    (targetWidth targetHeight : ℚ) : DrawCommand :=
  if !isIPCamera && tagIsVideo el.tag then
    { source := .element el
      mirrored := true
      sx := (videoCoverCrop el.videoWidth el.videoHeight targetWidth targetHeight).sx
      sy := (videoCoverCrop el.videoWidth el.videoHeight targetWidth targetHeight).sy
      sWidth := (videoCoverCrop el.videoWidth el.videoHeight targetWidth targetHeight).sWidth
      sHeight := (videoCoverCrop el.videoWidth el.videoHeight targetWidth targetHeight).sHeight
      dWidth := targetWidth, dHeight := targetHeight }
  else
    match getCoverRect (getSourceSize el).1 (getSourceSize el).2
        targetWidth targetHeight with
    | some r =>
        { source := .element el
          mirrored := false
          sx := r.sx, sy := r.sy, sWidth := r.sWidth, sHeight := r.sHeight
          dWidth := targetWidth, dHeight := targetHeight }
    | none =>
        { source := .element el
          mirrored := false
          sx := 0, sy := 0
          sWidth := (intrinsicSize el).1
          sHeight := (intrinsicSize el).2
          dWidth := targetWidth, dHeight := targetHeight }

/-- The method `captureFrame` from the unnamed service snapshot (part_002,
v2): the IP
snapshot branch cover-crops the fetched still via `getCoverRect` before
drawing it (unmirrored); the common path is `commonDrawV2`. -/
def captureFrameV2 (cfg : CameraConfig) (isIPCamera : Bool) (env : CaptureEnv)
    (sourceElement : Option Element) (targetWidth targetHeight : ℚ) :
    Except CaptureError DrawCommand :=
  if targetWidth = 0 ∨ targetHeight = 0 then
    .error .captureSizeMissing
  else if isIPCamera then
    match cfg.ipCameraSnapshot with
    | some snapshotUrl =>
        if env.snapshotLoadOk then
          .ok (match getCoverRect env.snapshotNaturalWidth env.snapshotNaturalHeight
                  targetWidth targetHeight with
            | some r =>
                { source := .fetchedStill (snapshotUrl ++ "?t=" ++ toString env.now)
                  mirrored := false
                  sx := r.sx, sy := r.sy, sWidth := r.sWidth, sHeight := r.sHeight
                  dWidth := targetWidth, dHeight := targetHeight }
            | none =>
                { source := .fetchedStill (snapshotUrl ++ "?t=" ++ toString env.now)
                  mirrored := false
                  sx := 0, sy := 0
                  sWidth := env.snapshotNaturalWidth
                  sHeight := env.snapshotNaturalHeight
                  dWidth := targetWidth, dHeight := targetHeight })
        else
          .error .snapshotLoadFailed
    | none =>
        match env.liveStreamImg with
        | some el => .ok (commonDrawV2 isIPCamera el targetWidth targetHeight)
        | none => .error .ipElementMissing
  else
    match sourceElement with
    | some el => .ok (commonDrawV2 isIPCamera el targetWidth targetHeight)
    | none => .error .sourceElementMissing

/-- Modelled from the spec: the repository's `src/constants.js`
(`CAMERA_CONFIG`) is not present in the source tree; its values are
reconstructed from spec section 6 and `IP_WEBCAM_SETUP.md` ("Video Stream:
`/cam-proxy/video`", "Photo Capture: `/cam-proxy/shot.jpg`",
"IP Camera Mode: Enabled (`USE_IP_CAMERA: true`)"). -/
def cameraConfigModelled : CameraConfig :=
  { useIPCamera := true
    ipCameraUrl := some "/cam-proxy/video"
    ipCameraSnapshot := some "/cam-proxy/shot.jpg" }

/-! ## part_000 `captureImage`: filter lookup and background draw -/

/-- The `filters` array of part_000 (lines 212-218): `(id, class)` pairs. -/
def filters : List (String × String) :=
  [("none", ""), ("sepia", "sepia(1)"), ("grayscale", "grayscale(1)"),
   ("vivid", "saturate(2) contrast(1.1)"),
   ("cool", "hue-rotate(180deg) saturate(1.5)")]

/-- The lookup `filters.find(f => f.id === filter)?.class || 'none'`
(part_000 line
296): the CSS filter string installed on the canvas context before the
background draw. -/
def filterClass (filterId : String) : String :=
  match filters.find? (fun f => f.1 = filterId) with
  | some f => if f.2 = "" then "none" else f.2
  | none => "none"

/-- The background draw of part_000 `captureImage` (steps 4-6, lines
265-304): filter string, mirror flag and source rectangle. -/
structure BoothDraw where
  mirrored : Bool
  filter : String
  sx : ℚ
  sy : ℚ
  sWidth : ℚ
  sHeight : ℚ
  dWidth : ℚ
  dHeight : ℚ
deriving Repr, DecidableEq

/-- Steps 4-6 of part_000 `captureImage`: compute the cover crop of the
source against the frame, shrink it by the zoom factor
(`zoomLevel || 1`), then draw mirrored exactly when not in IP-camera mode,
with the selected filter class installed. -/
def backgroundDraw (useIPCam : Bool) (filterId : String)
    (sourceWidth sourceHeight frameWidth frameHeight zoomLevel : ℚ) :
    BoothDraw :=
  let rect := coverCrop sourceWidth sourceHeight frameWidth frameHeight
  let zoomScale := jsOrQ zoomLevel 1
  let z := applyZoom rect zoomScale
  { mirrored := !useIPCam
    filter := filterClass filterId
    sx := z.x, sy := z.y, sWidth := z.w, sHeight := z.h
    dWidth := frameWidth, dHeight := frameHeight }

/-- A sample local-camera video element, used to instantiate theorems. -/
def sampleVideoEl : Element := { tag := .video, videoWidth := 1920, videoHeight := 1080 }

/-- A sample capture environment with a loadable 1920×1080 snapshot. -/
def sampleEnv : CaptureEnv :=
  { liveStreamImg := none, snapshotLoadOk := true,
    snapshotNaturalWidth := 1920, snapshotNaturalHeight := 1080, now := 7 }

/-- The `error.name` values of the platform media-capture API. -/
inductive JSErrorName where
  | notAllowed
  | notFound
  | notReadable
  | overconstrained
  | otherErr (msg : String)
deriving Repr, DecidableEq

/-- The `errorType` strings `initializeDeviceCamera` returns. -/
inductive ErrorType where
  | PERMISSION_DENIED
  | NO_DEVICE
  | CAMERA_IN_USE
  | OVERCONSTRAINED
  | UNKNOWN
deriving Repr, DecidableEq

/-- The `if/else if` error classification of `initializeDeviceCamera`
(cameraService.js lines 151-185). -/
def classifyError : JSErrorName → ErrorType
  | .notAllowed => .PERMISSION_DENIED
  | .notFound => .NO_DEVICE
  | .notReadable => .CAMERA_IN_USE
  | .overconstrained => .OVERCONSTRAINED
  | .otherErr _ => .UNKNOWN

/-- The fields a caller-supplied `constraints.video` object may carry
(`none` means the property is absent from the object). -/
structure VideoOverrides where
  facingMode : Option String := none
  widthIdeal : Option ℕ := none
  heightIdeal : Option ℕ := none
  deviceIdExact : Option String := none
  frameRateIdeal : Option ℕ := none
deriving Repr, DecidableEq

/-- The JavaScript value of `constraints.video` as the callers pass it:
absent (`undefined`), the primitive `true` (the retry call passes
`{ video: true }`), or a constraint object. -/
inductive VideoField where
  | undef
  | boolTrue
  | obj (o : VideoOverrides)
deriving Repr, DecidableEq

/-- The merged `video` constraints actually handed to `getUserMedia`. -/
structure MergedVideoConstraints where
  facingMode : Option String
  widthIdeal : Option ℕ
  heightIdeal : Option ℕ
  deviceIdExact : Option String
  frameRateIdeal : Option ℕ
deriving Repr, DecidableEq

/-- The constraint merge of `initializeDeviceCamera` (lines 97-105):
`{ facingMode: 'user', width: {ideal: 1920}, height: {ideal: 1080},
...constraints.video }`.  Object spread of `undefined` or of the primitive
`true` contributes no properties, so those cases leave the defaults
untouched; spreading an object overrides exactly the properties it
carries. -/
def mergeConstraints : VideoField → MergedVideoConstraints
  | .undef =>
      { facingMode := some "user", widthIdeal := some 1920,
        heightIdeal := some 1080, deviceIdExact := none, frameRateIdeal := none }
  | .boolTrue =>
      { facingMode := some "user", widthIdeal := some 1920,
        heightIdeal := some 1080, deviceIdExact := none, frameRateIdeal := none }
  | .obj o =>
      { facingMode := match o.facingMode with
          | some f => some f
          | none => some "user"
        widthIdeal := match o.widthIdeal with
          | some w => some w
          | none => some 1920
        heightIdeal := match o.heightIdeal with
          | some h => some h
          | none => some 1080
        deviceIdExact := o.deviceIdExact
        frameRateIdeal := o.frameRateIdeal }

/-- The outcome `getUserMedia` produces for a given merged request. -/
inductive GumOutcome where
  | okStream (streamId : ℕ)
  | jsError (name : JSErrorName)
deriving Repr, DecidableEq

/-- The result object `initialize` / `initializeDeviceCamera` resolve with. -/
structure DeviceResult where
  success : Bool
  stream : Option ℕ
  isIPCamera : Bool
  errorType : Option ErrorType
deriving Repr, DecidableEq

/-- The method `initializeDeviceCamera(constraints, videoElement)` (lines
92-186): one
`getUserMedia` request with the merged constraints; a stream on success, a
classified failure result on error.  Returns the result paired with the
list of `getUserMedia` requests the call performed. -/
def initializeDeviceCamera (gum : MergedVideoConstraints → GumOutcome)
    (videoField : VideoField) : DeviceResult × List MergedVideoConstraints :=
  match gum (mergeConstraints videoField) with
  | .okStream sid =>
      ({ success := true, stream := some sid, isIPCamera := false,
         errorType := none }, [mergeConstraints videoField])
  | .jsError n =>
      ({ success := false, stream := none, isIPCamera := false,
         errorType := some (classifyError n) }, [mergeConstraints videoField])

/-- The mutable fields of the camera service singleton that `initialize`
reads. -/
structure ServiceState where
  isInitializing : Bool
  mediaStream : Option ℕ
  isIPCamera : Bool
deriving Repr, DecidableEq

/-- The method named initialize in cameraService.js (lines 21-67),
modelled together with the list of underlying `getUserMedia` acquisitions
the call performs.  The concurrent-call guard (lines 24-31) awaits 100 ms
when `isInitializing` is set at entry and then reads `this.mediaStream`
again; `streamAfterWait` is the value that read observes (the in-flight
call may have completed during the wait).  If the guard does not return
early, the call stops any existing stream, takes the IP-camera branch when
configured, and otherwise performs the device acquisition, retrying exactly
once with `{ video: true }` when the first attempt reports
`OVERCONSTRAINED` and returning the retry's result directly. -/
def initializeCamera (cfg : CameraConfig)
    (gum : MergedVideoConstraints → GumOutcome) (st : ServiceState)
    (streamAfterWait : Option ℕ) (videoField : VideoField) :
    DeviceResult × List MergedVideoConstraints :=
  if st.isInitializing ∧ streamAfterWait.isSome then
    ({ success := true, stream := streamAfterWait, isIPCamera := st.isIPCamera,
       errorType := none }, [])
  else if cfg.useIPCamera then
    ({ success := true, stream := none, isIPCamera := true,
       errorType := none }, [])
  else
    let first := initializeDeviceCamera gum videoField
    if first.1.success = false ∧ first.1.errorType = some .OVERCONSTRAINED then
      let retry := initializeDeviceCamera gum .boolTrue
      (retry.1, first.2 ++ retry.2)
    else
      first

/-- A sample local-mode configuration (IP camera disabled). -/
def cfgLocalSample : CameraConfig :=
  { useIPCamera := false, ipCameraUrl := none, ipCameraSnapshot := none }

/-- A device that rejects every request as overconstrained. -/
def gumAlwaysOverconstrained : MergedVideoConstraints → GumOutcome :=
  fun _ => .jsError .overconstrained

/-- A device that satisfies every request with stream 7. -/
def gumAlwaysOk : MergedVideoConstraints → GumOutcome :=
  fun _ => .okStream 7

/-- Service state with no initialization in flight. -/
def stIdle : ServiceState :=
  { isInitializing := false, mediaStream := none, isIPCamera := false }

/-- Service state while a first `initialize` is still in flight. -/
def stBusy : ServiceState :=
  { isInitializing := true, mediaStream := none, isIPCamera := false }

/-! ## `getCaptureDimensions` (part_001 lines 63-93) -/

/-- The fields of the `.camera-stream` preview image element that
`getCaptureDimensions` reads. -/
structure ImgEl where
  naturalWidth : ℕ
  naturalHeight : ℕ
  width : ℕ
  height : ℕ
deriving Repr, DecidableEq

/-- The fields of the preview video element that `getCaptureDimensions`
reads. -/
structure VideoEl where
  videoWidth : ℕ
  videoHeight : ℕ
deriving Repr, DecidableEq

/-- Everything one `getCaptureDimensions` call observes: the selected frame
id, the memoized `framePixelSize` state, the service's IP-camera flag, the
`.camera-stream` image (if present), the bound video element (if present)
and the preview container's bounding rectangle (if present). -/
structure DimsEnv where
  selectedFrame : String
  framePixelSize : Option (ℕ × ℕ)
  isIPCamera : Bool
  cameraStreamImg : Option ImgEl
  videoEl : Option VideoEl
  containerRect : Option (ℚ × ℚ)
deriving DecidableEq

/-- The truthiness test `framePixelSize?.width && framePixelSize?.height`. -/
def frameSizeTruthy : Option (ℕ × ℕ) → Bool
  | some (w, h) => w != 0 && h != 0
  | none => false

/-- The IP-camera step of `getCaptureDimensions` (lines 68-75): the preview
image's `naturalWidth || width` and `naturalHeight || height`, when both
are truthy. -/
def ipPreviewDims (env : DimsEnv) : Option (ℕ × ℕ) :=
  if env.isIPCamera then
    match env.cameraStreamImg with
    | some img =>
        if jsOrNat img.naturalWidth img.width ≠ 0
            ∧ jsOrNat img.naturalHeight img.height ≠ 0 then
          some (jsOrNat img.naturalWidth img.width,
                jsOrNat img.naturalHeight img.height)
        else none
    | none => none
  else none

/-- The video step of `getCaptureDimensions` (lines 77-82): the video
element's `videoWidth`/`videoHeight`, when both are truthy. -/
def videoDims (env : DimsEnv) : Option (ℕ × ℕ) :=
  match env.videoEl with
  | some v =>
      if v.videoWidth ≠ 0 ∧ v.videoHeight ≠ 0 then
        some (v.videoWidth, v.videoHeight)
      else none
  | none => none

/-- The container fallback of `getCaptureDimensions` (lines 84-90): the
preview container's bounding rectangle, rounded, when both extents are
truthy. -/
def containerDims (env : DimsEnv) : Option (ℕ × ℕ) :=
  match env.containerRect with
  | some (w, h) =>
      if w ≠ 0 ∧ h ≠ 0 then some (jsRound w, jsRound h) else none
  | none => none

/-- The function `getCaptureDimensions` (part_001 lines 63-93): the
memoized frame pixel
size when a real frame is selected and its size is loaded and truthy;
otherwise the live source's native size (IP preview image first, then the
video element), then the container's rounded size, then `null`. -/
def getCaptureDimensions (env : DimsEnv) : Option (ℕ × ℕ) :=
  if env.selectedFrame ≠ "none" ∧ frameSizeTruthy env.framePixelSize = true then
    env.framePixelSize
  else
    match ipPreviewDims env with
    | some d => some d
    | none =>
        match videoDims env with
        | some d => some d
        | none => containerDims env

/-- A sample `getCaptureDimensions` environment: frame deselected while the
previous frame's 1080×1920 size is still memoized, local 1920×1080 video. -/
def dimsEnvSample : DimsEnv :=
  { selectedFrame := "none", framePixelSize := some (1080, 1920),
    isIPCamera := false, cameraStreamImg := none,
    videoEl := some ⟨1920, 1080⟩, containerRect := some (640, 480) }

/-! ## Capture flow error handling (part_000 lines 220-335 and part_001
lines 114-219) -/

/-- How a part_000 `captureImage` attempt fails: missing canvas ref,
missing camera source, or an exception raised in steps 2-9 (frame load,
draw, encode). -/
inductive BoothFailure where
  | canvasMissing
  | sourceMissing
  | raised
deriving Repr, DecidableEq

/-- The UI state part_000 `captureImage` touches. -/
structure BoothUIState where
  showPreview : Bool
  capturedImage : Option String
deriving Repr, DecidableEq

/-- The observable outcome of one part_000 `captureImage` call: final UI
state, and whether an error was written to the console. -/
structure BoothCaptureResult where
  ui : BoothUIState
  loggedError : Bool
deriving Repr, DecidableEq

/-- part_000 `captureImage` control flow: the early exits log and return
(the source-missing path also sets `showPreview` itself), an exception is
caught and logged, success stores the data URL — and the `finally` block
sets `showPreview := true` on every path. -/
def captureImageFlow (st : BoothUIState) (outcome : Option BoothFailure)
    (dataUrl : String) : BoothCaptureResult :=
  match outcome with
  | some .canvasMissing =>
      { ui := { st with showPreview := true }, loggedError := true }
  | some .sourceMissing =>
      { ui := { st with showPreview := true }, loggedError := true }
  | some .raised =>
      { ui := { st with showPreview := true }, loggedError := true }
  | none =>
      { ui := { showPreview := true, capturedImage := some dataUrl },
        loggedError := false }

/-- The UI state of the part_001 `CaptureScreen` component that the capture
click handler touches. -/
structure CaptureUIState where
  showCountdown : Bool
  showFlash : Bool
  isProcessing : Bool
  isCapturing : Bool
  showPreview : Bool
  capturedImage : Option String
deriving Repr, DecidableEq

/-- The observable outcome of the post-countdown step of part_001
`handleCaptureClick`: the settled UI state once all its timers have fired,
whether `console.error` ran, and whether an alert was shown. -/
structure CaptureStepResult where
  ui : CaptureUIState
  loggedError : Bool
  alerted : Bool
deriving Repr, DecidableEq

/-- Whether the uncancelled 600 ms flash timer (part_001 lines 138-142)
fires before or after the try/catch/finally of the capture settles.  A slow
compositing step (frame fetch, frame load, encode) settles after the timer;
the synchronous capture-size throw of line 146 and a source-missing
rejection settle before it. -/
inductive FlashTimerOrder where
  | firesBeforeOutcome
  | firesAfterOutcome
deriving Repr, DecidableEq

/-- The callback of the 600 ms timer (part_001 lines 139-142):
`setShowFlash(false); setIsProcessing(true)`.  `handleCaptureClick` never
cancels this timer, so it fires exactly once on every attempt. -/
def flashTimerFire (st : CaptureUIState) : CaptureUIState :=
  { st with showFlash := false, isProcessing := true }

/-- The state updates of the try-body completion, the catch and the finally
of part_001 `handleCaptureClick` (lines 144-217) once the capture outcome
is known: success stores the composited image, runs `setIsProcessing(false)`
and `setShowPreview(true)`; any failure is logged (`console.error`) and
alerted, then runs `setIsProcessing(false)`; the finally clears
`isCapturing` either way.  `showPreview` is untouched on failure. -/
def captureSettle (st : CaptureUIState) (outcome : Except String String) :
    CaptureStepResult :=
  match outcome with
  | .ok url =>
      { ui := { st with
          isProcessing := false
          isCapturing := false
          showPreview := true
          capturedImage := some url }
        loggedError := false
        alerted := false }
  | .error _ =>
      { ui := { st with
          isProcessing := false
          isCapturing := false }
        loggedError := true
        alerted := true }

/-- The post-countdown step of part_001 `handleCaptureClick` (lines
133-218), settled after both the capture outcome and the uncancelled 600 ms
flash timer: the body first runs `setShowCountdown(false);
setShowFlash(true)` and schedules the timer; the timer's updates and the
try/catch/finally updates then land in whichever order `order` records.
When the outcome settles first, the timer's later `setIsProcessing(true)`
overwrites the catch's (or success path's) `setIsProcessing(false)`. -/
def captureTimeoutStep (st : CaptureUIState) (outcome : Except String String)
    (order : FlashTimerOrder) : CaptureStepResult :=
  match order with
  | .firesBeforeOutcome =>
      captureSettle
        (flashTimerFire { st with showCountdown := false, showFlash := true })
        outcome
  | .firesAfterOutcome =>
      { ui := flashTimerFire
          ((captureSettle { st with showCountdown := false, showFlash := true }
            outcome).ui)
        loggedError := (captureSettle
          { st with showCountdown := false, showFlash := true }
          outcome).loggedError
        alerted := (captureSettle
          { st with showCountdown := false, showFlash := true }
          outcome).alerted }

/-! ## StorageService session bookkeeping (storage section of the service
file, lines 505-709) -/

/-- A session record's counters (`photoCount`, `totalSize`). -/
structure SessionRec where
  photoCount : ℤ
  totalSize : ℤ
deriving Repr, DecidableEq

/-- A photo record: owning session and stored blob's byte size. -/
structure PhotoRec where
  sessionId : String
  blobSize : ℕ
deriving Repr, DecidableEq

/-- The `sessions` and `photos` IndexedDB object stores, as key-value maps. -/
structure Store where
  sessions : String → Option SessionRec
  photos : String → Option PhotoRec

/-- The freshly created database. -/
def emptyStore : Store :=
  { sessions := fun _ => none, photos := fun _ => none }

/-- The method `createSession` (lines 505-525): `add` a fresh record with
`photoCount: 0, totalSize: 0`; an `add` on an existing key rejects and the
transaction aborts, leaving the store unchanged.  (The call sites pass only
category metadata, never counter overrides.) -/
def createSession (s : Store) (id : String) : Store :=
  match s.sessions id with
  | some _ => s
  | none =>
      { s with sessions := fun k =>
          if k = id then some ⟨0, 0⟩ else s.sessions k }

/-- The method `savePhoto(sessionId, imageBlob, metadata)` (lines 530-572):
in one
transaction, `add` the photo record (a duplicate photo id aborts the whole
transaction, session update included) and, if the session record exists,
set `photoCount := (photoCount || 0) + 1` and
`totalSize := (totalSize || 0) + imageBlob.size`. -/
def savePhoto (s : Store) (photoId sessionId : String) (blobSize : ℕ) :
    Store :=
  match s.photos photoId with
  | some _ => s
  | none =>
      match s.sessions sessionId with
      | none =>
          { s with photos := fun k =>
              if k = photoId then some ⟨sessionId, blobSize⟩ else s.photos k }
      | some session =>
          { photos := fun k =>
              if k = photoId then some ⟨sessionId, blobSize⟩ else s.photos k
            sessions := fun k =>
              if k = sessionId then
                some ⟨jsOrInt session.photoCount 0 + 1,
                      jsOrInt session.totalSize 0 + blobSize⟩
              else s.sessions k }

/-- The method `deletePhoto(photoId)` (lines 675-709): look the photo up;
when found,
delete it and, if its owning session record exists, set
`photoCount := Math.max(0, (photoCount || 1) - 1)` and
`totalSize := Math.max(0, (totalSize || 0) - (blobSize || 0))`. -/
def deletePhoto (s : Store) (photoId : String) : Store :=
  match s.photos photoId with
  | none => s
  | some photo =>
      match s.sessions photo.sessionId with
      | none =>
          { s with photos := fun k =>
              if k = photoId then none else s.photos k }
      | some session =>
          { photos := fun k => if k = photoId then none else s.photos k
            sessions := fun k =>
              if k = photo.sessionId then
                some ⟨max 0 (jsOrInt session.photoCount 1 - 1),
                      max 0 (jsOrInt session.totalSize 0
                        - jsOrInt (photo.blobSize : ℤ) 0)⟩
              else s.sessions k }

/-- Store states reachable through the storage operations. -/
inductive ReachableStore : Store → Prop where
  | init : ReachableStore emptyStore
  | create (s : Store) (id : String) :
      ReachableStore s → ReachableStore (createSession s id)
  | save (s : Store) (photoId sessionId : String) (blobSize : ℕ) :
      ReachableStore s → ReachableStore (savePhoto s photoId sessionId blobSize)
  | del (s : Store) (photoId : String) :
      ReachableStore s → ReachableStore (deletePhoto s photoId)

@[simp] theorem jsOrQ_zero (a : ℚ) : jsOrQ a 0 = a := by
  unfold jsOrQ; split <;> simp_all

@[simp] theorem jsOrInt_zero (a : ℤ) : jsOrInt a 0 = a := by
  unfold jsOrInt; split <;> simp_all

/-- Claim C1: for positive source dimensions `(Sw, Sh)` and target dimensions
`(Tw, Th)`, the cover-fit crop rectangle has width/height ratio exactly
`Tw / Th`, lies inside `[0, Sw] × [0, Sh]`, equals
`(Sh·Tw/Th, Sh)` at horizontal offset `(Sw − cropWidth)/2` (vertical offset
`0`) when the source is relatively wider, and `(Sw, Sw·Th/Tw)` at vertical
offset `(Sh − cropHeight)/2` (horizontal offset `0`) otherwise; the
`captureImage` crop of part_000 computes the same rectangle. -/
theorem getCoverRect_cover_spec (Sw Sh Tw Th : ℚ)
    (hSw : 0 < Sw) (hSh : 0 < Sh) (hTw : 0 < Tw) (hTh : 0 < Th) :
    ∃ r : CoverRect, getCoverRect Sw Sh Tw Th = some r
      ∧ r.sWidth / r.sHeight = Tw / Th
      ∧ 0 ≤ r.sx ∧ 0 ≤ r.sy
      ∧ r.sx + r.sWidth ≤ Sw ∧ r.sy + r.sHeight ≤ Sh
      ∧ (Sw / Sh > Tw / Th →
          r = ⟨(Sw - Sh * Tw / Th) / 2, 0, Sh * Tw / Th, Sh⟩)
      ∧ (¬ Sw / Sh > Tw / Th →
          r = ⟨0, (Sh - Sw * Th / Tw) / 2, Sw, Sw * Th / Tw⟩)
      ∧ coverCrop Sw Sh Tw Th = ⟨r.sx, r.sy, r.sWidth, r.sHeight⟩ := by
  have hSw0 : Sw ≠ 0 := ne_of_gt hSw
  have hSh0 : Sh ≠ 0 := ne_of_gt hSh
  have hTw0 : Tw ≠ 0 := ne_of_gt hTw
  have hTh0 : Th ≠ 0 := ne_of_gt hTh
  have hguard : ¬(Sw = 0 ∨ Sh = 0) := by push_neg; exact ⟨hSw0, hSh0⟩
  by_cases hcmp : Tw / Th < Sw / Sh
  · -- relatively wider source: crop width `Sh * (Tw / Th)`
    have hgc : getCoverRect Sw Sh Tw Th
        = some ⟨(Sw - Sh * (Tw / Th)) / 2, 0, Sh * (Tw / Th), Sh⟩ := by
      simp only [getCoverRect, gt_iff_lt]
      rw [if_neg hguard, if_pos hcmp]
    have hcc : coverCrop Sw Sh Tw Th
        = ⟨(Sw - Sh * (Tw / Th)) / 2, 0, Sh * (Tw / Th), Sh⟩ := by
      simp only [coverCrop, gt_iff_lt]
      rw [if_pos hcmp]
    have hkey : Sh * (Tw / Th) < Sw := by
      have hx : Tw * Sh < Sw * Th := (div_lt_div_iff₀ hTh hSh).mp hcmp
      rw [mul_div_assoc', div_lt_iff₀ hTh]
      nlinarith
    refine ⟨_, hgc, ?_, ?_, le_refl 0, ?_, ?_, ?_, ?_, by rw [hcc]⟩
    · exact mul_div_cancel_left₀ _ hSh0
    · simp only; linarith
    · simp only; linarith
    · simp only [zero_add, le_refl]
    · intro _; congr 1 <;> ring
    · intro hcon; exact absurd hcmp hcon
  · -- relatively taller (or equal) source: crop height `Sw / (Tw / Th)`
    have hgc : getCoverRect Sw Sh Tw Th
        = some ⟨0, (Sh - Sw / (Tw / Th)) / 2, Sw, Sw / (Tw / Th)⟩ := by
      simp only [getCoverRect, gt_iff_lt]
      rw [if_neg hguard, if_neg hcmp]
    have hcc : coverCrop Sw Sh Tw Th
        = ⟨0, (Sh - Sw / (Tw / Th)) / 2, Sw, Sw / (Tw / Th)⟩ := by
      simp only [coverCrop, gt_iff_lt]
      rw [if_neg hcmp]
    have hle : Sw / Sh ≤ Tw / Th := le_of_not_lt hcmp
    have hkey : Sw / (Tw / Th) ≤ Sh := by
      have hx : Sw * Th ≤ Tw * Sh := (div_le_div_iff₀ hSh hTh).mp hle
      rw [div_div_eq_mul_div, div_le_iff₀ hTw]
      nlinarith
    refine ⟨_, hgc, ?_, le_refl 0, ?_, ?_, ?_, ?_, ?_, by rw [hcc]⟩
    · simp only; field_simp; ring
    · simp only; linarith
    · simp only [zero_add, le_refl]
    · simp only; linarith
    · intro hcon; exact absurd hcon hcmp
    · intro _
      have hdd : Sw / (Tw / Th) = Sw * Th / Tw := div_div_eq_mul_div Sw Tw Th
      congr 1 <;> rw [hdd]

/-- Witness for `getCoverRect_cover_spec` at `(1920, 1080)` source and
`(1080, 1920)` target. -/
theorem getCoverRect_cover_spec_witness :
    ∃ r : CoverRect, getCoverRect 1920 1080 1080 1920 = some r
      ∧ r.sWidth / r.sHeight = 1080 / 1920
      ∧ 0 ≤ r.sx ∧ 0 ≤ r.sy
      ∧ r.sx + r.sWidth ≤ 1920 ∧ r.sy + r.sHeight ≤ 1080
      ∧ ((1920 : ℚ) / 1080 > 1080 / 1920 →
          r = ⟨(1920 - 1080 * 1080 / 1920) / 2, 0, 1080 * 1080 / 1920, 1080⟩)
      ∧ (¬ (1920 : ℚ) / 1080 > 1080 / 1920 →
          r = ⟨0, (1080 - 1920 * 1920 / 1080) / 2, 1920, 1920 * 1920 / 1080⟩)
      ∧ coverCrop 1920 1080 1080 1920 = ⟨r.sx, r.sy, r.sWidth, r.sHeight⟩ :=
  getCoverRect_cover_spec 1920 1080 1080 1920
    (by norm_num) (by norm_num) (by norm_num) (by norm_num)

/-- Claim C3: for every source/target dimension pair and every positive zoom
factor `z`, the zoomed crop rectangle is the cover-fit crop rectangle shrunk
by exactly `1/z` in each linear dimension with its center unchanged, zoom
factor `1` is a no-op, and the background draw of part_000 `captureImage`
uses exactly this zoomed rectangle as its source rectangle. -/
theorem zoom_shrink_recenter (Sw Sh Tw Th z : ℚ) (hz : 0 < z) :
    (applyZoom (coverCrop Sw Sh Tw Th) z).w = (coverCrop Sw Sh Tw Th).w / z
      ∧ (applyZoom (coverCrop Sw Sh Tw Th) z).h = (coverCrop Sw Sh Tw Th).h / z
      ∧ (applyZoom (coverCrop Sw Sh Tw Th) z).x
          + (applyZoom (coverCrop Sw Sh Tw Th) z).w / 2
          = (coverCrop Sw Sh Tw Th).x + (coverCrop Sw Sh Tw Th).w / 2
      ∧ (applyZoom (coverCrop Sw Sh Tw Th) z).y
          + (applyZoom (coverCrop Sw Sh Tw Th) z).h / 2
          = (coverCrop Sw Sh Tw Th).y + (coverCrop Sw Sh Tw Th).h / 2
      ∧ applyZoom (coverCrop Sw Sh Tw Th) 1 = coverCrop Sw Sh Tw Th
      ∧ (∀ (useIPCam : Bool) (filterId : String),
          (backgroundDraw useIPCam filterId Sw Sh Tw Th z).sx
              = (applyZoom (coverCrop Sw Sh Tw Th) z).x
            ∧ (backgroundDraw useIPCam filterId Sw Sh Tw Th z).sy
              = (applyZoom (coverCrop Sw Sh Tw Th) z).y
            ∧ (backgroundDraw useIPCam filterId Sw Sh Tw Th z).sWidth
              = (applyZoom (coverCrop Sw Sh Tw Th) z).w
            ∧ (backgroundDraw useIPCam filterId Sw Sh Tw Th z).sHeight
              = (applyZoom (coverCrop Sw Sh Tw Th) z).h) := by
  have hz0 : z ≠ 0 := ne_of_gt hz
  have hjs : jsOrQ z 1 = z := by
    unfold jsOrQ
    rw [if_neg hz0]
  refine ⟨rfl, rfl, ?_, ?_, ?_, ?_⟩
  · unfold applyZoom; ring
  · unfold applyZoom; ring
  · unfold applyZoom; simp
  · intro useIPCam filterId
    unfold backgroundDraw
    rw [hjs]
    exact ⟨rfl, rfl, rfl, rfl⟩

/-- Witness for `zoom_shrink_recenter` at a `1920×1080` source, `1080×1920`
target and zoom factor `2`. -/
theorem zoom_shrink_recenter_witness :
    (applyZoom (coverCrop 1920 1080 1080 1920) 2).w
        = (coverCrop 1920 1080 1080 1920).w / 2
      ∧ applyZoom (coverCrop 1920 1080 1080 1920) 1
          = coverCrop 1920 1080 1080 1920
      ∧ (backgroundDraw false "none" 1920 1080 1080 1920 2).sWidth
          = (applyZoom (coverCrop 1920 1080 1080 1920) 2).w :=
  have h := zoom_shrink_recenter 1920 1080 1080 1920 2 (by norm_num)
  ⟨h.1, h.2.2.2.2.1, (h.2.2.2.2.2 false "none").2.2.1⟩

theorem tagIsVideo_iff (t : Tag) : tagIsVideo t = true ↔ t = .video := by
  cases t <;> simp [tagIsVideo]

theorem commonDraw_source (b : Bool) (el : Element) (tw th : ℚ) :
    (commonDraw b el tw th).source = .element el := rfl

theorem commonDraw_mirrored_iff (b : Bool) (el : Element) (tw th : ℚ) :
    (commonDraw b el tw th).mirrored = true ↔ b = false ∧ el.tag = .video := by
  simp [commonDraw, tagIsVideo_iff, Bool.not_eq_true']

theorem commonDrawV2_source (b : Bool) (el : Element) (tw th : ℚ) :
    (commonDrawV2 b el tw th).source = .element el := by
  unfold commonDrawV2
  split
  · rfl
  · split <;> rfl

theorem commonDrawV2_mirrored_iff (b : Bool) (el : Element) (tw th : ℚ) :
    (commonDrawV2 b el tw th).mirrored = true ↔ b = false ∧ el.tag = .video := by
  unfold commonDrawV2
  split
  · rename_i hcond
    simp only [Bool.and_eq_true, Bool.not_eq_true', tagIsVideo_iff] at hcond
    simp [hcond]
  · rename_i hcond
    simp only [Bool.and_eq_true, Bool.not_eq_true', tagIsVideo_iff, not_and] at hcond
    split
    · simpa using hcond
    · simpa using hcond

/-- Claim C2: in every composited capture — v1 service, v2 service and the
part_000 `captureImage` — the horizontal mirror is applied if and only if
the active source is a local self-facing camera, i.e. a video element in
non-IP-camera mode; a remote/IP source is never mirrored, for any selected
frame, filter or zoom value. -/
theorem mirror_iff_local_video :
    (∀ (cfg : CameraConfig) (isIPCamera : Bool) (env : CaptureEnv)
        (sourceElement : Option Element) (targetWidth targetHeight : ℚ)
        (cmd : DrawCommand),
      captureFrame cfg isIPCamera env sourceElement targetWidth targetHeight
          = .ok cmd →
        (cmd.mirrored = true ↔
          isIPCamera = false ∧ ∃ el, cmd.source = .element el ∧ el.tag = .video))
    ∧ (∀ (cfg : CameraConfig) (isIPCamera : Bool) (env : CaptureEnv)
        (sourceElement : Option Element) (targetWidth targetHeight : ℚ)
        (cmd : DrawCommand),
      captureFrameV2 cfg isIPCamera env sourceElement targetWidth targetHeight
          = .ok cmd →
        (cmd.mirrored = true ↔
          isIPCamera = false ∧ ∃ el, cmd.source = .element el ∧ el.tag = .video))
    ∧ (∀ (useIPCam : Bool) (filterId : String)
        (Sw Sh Tw Th zoomLevel : ℚ),
        (backgroundDraw useIPCam filterId Sw Sh Tw Th zoomLevel).mirrored
          = !useIPCam) := by
  refine ⟨?_, ?_, ?_⟩
  · intro cfg isIP env srcEl tw th cmd h
    unfold captureFrame at h
    split at h
    · exact absurd h (by simp)
    · split at h
      · rename_i hip
        split at h
        · split at h
          · rw [Except.ok.injEq] at h
            subst h
            simp [hip]
          · exact absurd h (by simp)
        · split at h
          · rw [Except.ok.injEq] at h
            subst h
            rw [commonDraw_mirrored_iff]
            simp [hip, commonDraw_source]
          · exact absurd h (by simp)
      · rename_i hip
        rw [Bool.not_eq_true] at hip
        split at h
        · rw [Except.ok.injEq] at h
          subst h
          rw [commonDraw_mirrored_iff]
          simp [hip, commonDraw_source]
        · exact absurd h (by simp)
  · intro cfg isIP env srcEl tw th cmd h
    unfold captureFrameV2 at h
    split at h
    · exact absurd h (by simp)
    · split at h
      · rename_i hip
        split at h
        · split at h
          · rw [Except.ok.injEq] at h
            subst h
            split <;> simp [hip]
          · exact absurd h (by simp)
        · split at h
          · rw [Except.ok.injEq] at h
            subst h
            rw [commonDrawV2_mirrored_iff]
            simp [hip, commonDrawV2_source]
          · exact absurd h (by simp)
      · rename_i hip
        rw [Bool.not_eq_true] at hip
        split at h
        · rw [Except.ok.injEq] at h
          subst h
          rw [commonDrawV2_mirrored_iff]
          simp [hip, commonDrawV2_source]
        · exact absurd h (by simp)
  · intro useIPCam filterId Sw Sh Tw Th zoomLevel
    rfl

/-- Witness for `mirror_iff_local_video`: a local webcam capture from a
video element is mirrored. -/
theorem mirror_iff_local_video_witness :
    captureFrame cameraConfigModelled false sampleEnv (some sampleVideoEl)
        800 600 = .ok (commonDraw false sampleVideoEl 800 600)
      ∧ (commonDraw false sampleVideoEl 800 600).mirrored = true :=
  ⟨by rfl,
    (mirror_iff_local_video.1 cameraConfigModelled false sampleEnv
        (some sampleVideoEl) 800 600 (commonDraw false sampleVideoEl 800 600)
        (by rfl)).mpr
      ⟨rfl, sampleVideoEl, rfl, rfl⟩⟩

theorem initializeDeviceCamera_requests
    (gum : MergedVideoConstraints → GumOutcome) (videoField : VideoField) :
    (initializeDeviceCamera gum videoField).2 = [mergeConstraints videoField] := by
  unfold initializeDeviceCamera
  cases gum (mergeConstraints videoField) <;> rfl

/-- Claim C6 amended: when a local-camera acquisition fails as
overconstrained on the first attempt, `initialize` performs exactly one
automatic retry and, if the retry also fails, surfaces the retry's
classified failure rather than the original overconstrained error; the
retry's request, however, is `{ video: true }` merged back with the service
defaults, so it still carries the ideal `facingMode: 'user'` and ideal
1920×1080 resolution hints (caller-supplied overrides such as an exact
`deviceId` are dropped, and no property of the request is mandatory, so any
camera can satisfy it) — it is not a hint-free minimal request. -/
theorem overconstrained_retry_spec (cfg : CameraConfig)
    (gum : MergedVideoConstraints → GumOutcome) (st : ServiceState)
    (streamAfterWait : Option ℕ) (videoField : VideoField)
    (hguard : ¬(st.isInitializing = true ∧ streamAfterWait.isSome = true))
    (hip : cfg.useIPCamera = false)
    (hover : gum (mergeConstraints videoField) = .jsError .overconstrained) :
    (initializeCamera cfg gum st streamAfterWait videoField).2
        = [mergeConstraints videoField, mergeConstraints .boolTrue]
    ∧ (initializeCamera cfg gum st streamAfterWait videoField).1
        = (initializeDeviceCamera gum .boolTrue).1
    ∧ mergeConstraints .boolTrue
        = { facingMode := some "user", widthIdeal := some 1920,
            heightIdeal := some 1080, deviceIdExact := none,
            frameRateIdeal := none }
    ∧ (∀ n, gum (mergeConstraints .boolTrue) = .jsError n →
        (initializeCamera cfg gum st streamAfterWait videoField).1.errorType
          = some (classifyError n)) := by
  have hfirst : initializeDeviceCamera gum videoField
      = ({ success := false, stream := none, isIPCamera := false,
           errorType := some .OVERCONSTRAINED },
         [mergeConstraints videoField]) := by
    unfold initializeDeviceCamera
    rw [hover]
    rfl
  have hmain : initializeCamera cfg gum st streamAfterWait videoField
      = ((initializeDeviceCamera gum .boolTrue).1,
         [mergeConstraints videoField]
           ++ (initializeDeviceCamera gum .boolTrue).2) := by
    unfold initializeCamera
    rw [if_neg hguard]
    simp only [hip, Bool.false_eq_true, if_false, hfirst]
    simp
  refine ⟨?_, ?_, rfl, ?_⟩
  · rw [hmain, initializeDeviceCamera_requests]
    rfl
  · rw [hmain]
  · intro n hn
    rw [hmain]
    unfold initializeDeviceCamera
    rw [hn]

/-- Witness for `overconstrained_retry_spec` with a device that rejects
every request as overconstrained. -/
theorem overconstrained_retry_spec_witness :
    (initializeCamera cfgLocalSample gumAlwaysOverconstrained stIdle none
        .undef).2
      = [mergeConstraints .undef, mergeConstraints .boolTrue]
    ∧ (initializeCamera cfgLocalSample gumAlwaysOverconstrained stIdle none
        .undef).1
      = (initializeDeviceCamera gumAlwaysOverconstrained .boolTrue).1 :=
  have h := overconstrained_retry_spec cfgLocalSample gumAlwaysOverconstrained
    stIdle none .undef (by simp [stIdle]) rfl rfl
  ⟨h.1, h.2.1⟩

/-- Claim C6 as stated is false at this input: the first attempt (an exact
`deviceId` request) fails as overconstrained and the single retry occurs,
but the retry's `getUserMedia` request — `{ video: true }` merged with the
service defaults — still carries ideal resolution hints (1920×1080) and an
ideal `facingMode: 'user'` hint, so the retry does not use hint-free
minimal constraints. -/
theorem retry_constraints_not_minimal_cex :
    (initializeCamera cfgLocalSample gumAlwaysOverconstrained stIdle none
        (.obj { deviceIdExact := some "cam-2" })).2
      = [mergeConstraints (.obj { deviceIdExact := some "cam-2" }),
         mergeConstraints .boolTrue]
    ∧ (mergeConstraints .boolTrue).widthIdeal = some 1920
    ∧ (mergeConstraints .boolTrue).heightIdeal = some 1080
    ∧ (mergeConstraints .boolTrue).facingMode = some "user" := by
  exact ⟨rfl, rfl, rfl, rfl⟩

/-- Claim C9 amended: a second `initialize` call arriving while a first is
still in flight waits 100 ms and then re-reads the service's `mediaStream`.
If the in-flight call has produced a stream by then, the second call
returns that same stream successfully and performs no device acquisition of
its own; if the stream is not ready after the wait (and the service is in
local mode), the second call falls through and performs its own
`getUserMedia` acquisition, racing the first. -/
theorem concurrent_init_guard_spec (cfg : CameraConfig)
    (gum : MergedVideoConstraints → GumOutcome) (st : ServiceState)
    (videoField : VideoField) (hbusy : st.isInitializing = true) :
    (∀ sid, initializeCamera cfg gum st (some sid) videoField
        = ({ success := true, stream := some sid,
             isIPCamera := st.isIPCamera, errorType := none }, []))
    ∧ (cfg.useIPCamera = false →
        (initializeCamera cfg gum st none videoField).2 ≠ []) := by
  constructor
  · intro sid
    unfold initializeCamera
    rw [if_pos ⟨hbusy, rfl⟩]
  · intro hip
    unfold initializeCamera
    rw [if_neg (by simp)]
    simp only [hip, Bool.false_eq_true, if_false]
    split
    · simp [initializeDeviceCamera_requests]
    · rw [initializeDeviceCamera_requests]
      simp

/-- Witness for `concurrent_init_guard_spec`: with a first call in flight,
a ready stream is returned without acquisition, while an unready stream
leads to the second call acquiring on its own. -/
theorem concurrent_init_guard_spec_witness :
    initializeCamera cfgLocalSample gumAlwaysOk stBusy (some 42) .undef
      = ({ success := true, stream := some 42, isIPCamera := false,
           errorType := none }, [])
    ∧ (initializeCamera cfgLocalSample gumAlwaysOk stBusy none .undef).2 ≠ [] :=
  have h := concurrent_init_guard_spec cfgLocalSample gumAlwaysOk stBusy
    .undef rfl
  ⟨by simpa [stBusy] using h.1 42, h.2 rfl⟩

/-- Claim C9 as stated is false at this schedule: the first `initialize` is
still in flight (`isInitializing` set) and has not produced a stream when
the second call's 100 ms wait elapses, so the second call performs its own
underlying `getUserMedia` acquisition instead of waiting for the in-flight
one. -/
theorem concurrent_init_second_acquisition_cex :
    (initializeCamera cfgLocalSample gumAlwaysOk stBusy none .undef).2
      = [mergeConstraints .undef] := by
  rfl

/-- Claim C8: when the selected frame is "none", the capture's target
dimensions come from the live source's native pixel size, falling back to
the preview container's rounded size only when the source's dimensions are
unavailable; the memoized size of the previously selected frame is never
consulted — the result is identical whatever `framePixelSize` still
holds. -/
theorem capture_dims_ignore_previous_frame (env : DimsEnv)
    (hnone : env.selectedFrame = "none") :
    (∀ fps, getCaptureDimensions { env with framePixelSize := fps }
        = getCaptureDimensions { env with framePixelSize := none })
    ∧ (∀ d, ipPreviewDims env = some d → getCaptureDimensions env = some d)
    ∧ (ipPreviewDims env = none →
        ∀ d, videoDims env = some d → getCaptureDimensions env = some d)
    ∧ (ipPreviewDims env = none → videoDims env = none →
        getCaptureDimensions env = containerDims env) := by
  have hsel : ∀ (fps : Option (ℕ × ℕ)),
      ¬(env.selectedFrame ≠ "none" ∧ frameSizeTruthy fps = true) := by
    intro fps h
    exact h.1 hnone
  refine ⟨?_, ?_, ?_, ?_⟩
  · intro fps
    unfold getCaptureDimensions
    dsimp only
    rw [if_neg (hsel fps), if_neg (hsel none)]
    have hip : ipPreviewDims { env with framePixelSize := fps }
        = ipPreviewDims { env with framePixelSize := none } := rfl
    have hvd : videoDims { env with framePixelSize := fps }
        = videoDims { env with framePixelSize := none } := rfl
    have hcd : containerDims { env with framePixelSize := fps }
        = containerDims { env with framePixelSize := none } := rfl
    rw [hip, hvd, hcd]
  · intro d hd
    unfold getCaptureDimensions
    rw [if_neg (hsel env.framePixelSize), hd]
  · intro hip d hd
    unfold getCaptureDimensions
    rw [if_neg (hsel env.framePixelSize), hip, hd]
  · intro hip hvd
    unfold getCaptureDimensions
    rw [if_neg (hsel env.framePixelSize), hip, hvd]

/-- Witness for `capture_dims_ignore_previous_frame`: with "none" selected
and the previous frame's 1080×1920 size still memoized, the computed target
is the video's native 1920×1080, and the stale size is ignored. -/
theorem capture_dims_ignore_previous_frame_witness :
    getCaptureDimensions { dimsEnvSample with framePixelSize := some (1080, 1920) }
      = getCaptureDimensions { dimsEnvSample with framePixelSize := none }
    ∧ getCaptureDimensions dimsEnvSample = some (1920, 1080) :=
  have h := capture_dims_ignore_previous_frame dimsEnvSample rfl
  ⟨h.1 (some (1080, 1920)), h.2.2.1 rfl (1920, 1080) rfl⟩

/-- Claim C7 as stated is false for the part_001 CaptureScreen flow: a
capture attempt that fails synchronously before the 600 ms flash timer has
fired (here the capture-size failure thrown at line 146) is logged and
alerted but does not advance the UI to the result-review/preview state
(`showPreview` stays `false`), and the uncancelled timer's later
`setIsProcessing(true)` then leaves the processing overlay shown
indefinitely — the user is left stuck, contrary to the claim. -/
theorem capture_error_no_preview_cex :
    (captureTimeoutStep
        { showCountdown := true, showFlash := false, isProcessing := false,
          isCapturing := true, showPreview := false, capturedImage := none }
        (.error "Unable to determine capture size")
        .firesAfterOutcome).ui.showPreview = false
    ∧ (captureTimeoutStep
        { showCountdown := true, showFlash := false, isProcessing := false,
          isCapturing := true, showPreview := false, capturedImage := none }
        (.error "Unable to determine capture size")
        .firesAfterOutcome).ui.isProcessing = true
    ∧ (captureTimeoutStep
        { showCountdown := true, showFlash := false, isProcessing := false,
          isCapturing := true, showPreview := false, capturedImage := none }
        (.error "Unable to determine capture size")
        .firesAfterOutcome).loggedError = true :=
  ⟨rfl, rfl, rfl⟩

/-- Claim C7 amended: every failing capture attempt logs the error, and in
the part_000 flow every failure path (canvas missing, source missing,
exception) still advances to the preview state.  In the part_001
CaptureScreen flow a failure is logged and alerted but never advances
`showPreview`, and the settled state depends on the uncancelled 600 ms
flash timer: a failure that settles after the timer has fired ends at the
ready capture screen with the countdown, flash, processing and capturing
flags all cleared, while a failure that settles before the timer fires
(the synchronous capture-size throw, a missing source) is followed by the
timer's `setIsProcessing(true)` and leaves the processing overlay shown
indefinitely. -/
theorem capture_error_flow_spec :
    (∀ (st : BoothUIState) (outcome : Option BoothFailure) (url : String),
      (captureImageFlow st outcome url).ui.showPreview = true
      ∧ (outcome ≠ none → (captureImageFlow st outcome url).loggedError = true))
    ∧ (∀ (st : CaptureUIState) (msg : String) (order : FlashTimerOrder),
      (captureTimeoutStep st (.error msg) order).loggedError = true
      ∧ (captureTimeoutStep st (.error msg) order).alerted = true
      ∧ (captureTimeoutStep st (.error msg) order).ui.showCountdown = false
      ∧ (captureTimeoutStep st (.error msg) order).ui.showFlash = false
      ∧ (captureTimeoutStep st (.error msg) order).ui.isCapturing = false
      ∧ (captureTimeoutStep st (.error msg) order).ui.showPreview
          = st.showPreview)
    ∧ (∀ (st : CaptureUIState) (msg : String),
      (captureTimeoutStep st (.error msg)
          .firesBeforeOutcome).ui.isProcessing = false
      ∧ (captureTimeoutStep st (.error msg)
          .firesAfterOutcome).ui.isProcessing = true) := by
  refine ⟨?_, ?_, ?_⟩
  · intro st outcome url
    cases outcome with
    | none => exact ⟨rfl, by simp⟩
    | some f => cases f <;> exact ⟨rfl, fun _ => rfl⟩
  · intro st msg order
    cases order with
    | firesBeforeOutcome => exact ⟨rfl, rfl, rfl, rfl, rfl, rfl⟩
    | firesAfterOutcome => exact ⟨rfl, rfl, rfl, rfl, rfl, rfl⟩
  · intro st msg
    exact ⟨rfl, rfl⟩

/-- Witness for `capture_error_flow_spec`: a raised exception in the
part_000 flow still ends on the preview screen with the error logged, and a
part_001 failure that settles after the flash timer ends with the
processing overlay cleared. -/
theorem capture_error_flow_spec_witness :
    (captureImageFlow { showPreview := false, capturedImage := none }
        (some .raised) "").ui.showPreview = true
    ∧ (captureImageFlow { showPreview := false, capturedImage := none }
        (some .raised) "").loggedError = true
    ∧ (captureTimeoutStep
        { showCountdown := true, showFlash := false, isProcessing := false,
          isCapturing := true, showPreview := false, capturedImage := none }
        (.error "Failed to load frame")
        .firesBeforeOutcome).ui.isProcessing = false :=
  have h := capture_error_flow_spec.1
    { showPreview := false, capturedImage := none } (some .raised) ""
  have h2 := capture_error_flow_spec.2.2
    { showCountdown := true, showFlash := false, isProcessing := false,
      isCapturing := true, showPreview := false, capturedImage := none }
    "Failed to load frame"
  ⟨h.1, h.2 (by simp), h2.1⟩

theorem max_zero_jsOrInt_sub_one (x : ℤ) :
    max 0 (jsOrInt x 1 - 1) = max 0 (x - 1) := by
  unfold jsOrInt
  split
  · rename_i h
    rw [h]
    decide
  · rfl

/-- Claim C10: photo-store session bookkeeping — a successful `savePhoto`
into an existing session increments its `photoCount` by exactly one and its
`totalSize` by exactly the saved blob's byte size; `deletePhoto` of an
existing photo removes it and decrements the owning session's counters by
that photo's contribution, clamping at zero; and in every reachable store
state every session's `photoCount` and `totalSize` are non-negative. -/
theorem storage_bookkeeping :
    (∀ (s : Store) (photoId sessionId : String) (blobSize : ℕ)
        (sess : SessionRec),
      s.photos photoId = none → s.sessions sessionId = some sess →
        (savePhoto s photoId sessionId blobSize).sessions sessionId
          = some ⟨sess.photoCount + 1, sess.totalSize + blobSize⟩)
    ∧ (∀ (s : Store) (photoId : String) (photo : PhotoRec)
        (sess : SessionRec),
      s.photos photoId = some photo →
      s.sessions photo.sessionId = some sess →
        (deletePhoto s photoId).photos photoId = none
        ∧ (deletePhoto s photoId).sessions photo.sessionId
          = some ⟨max 0 (sess.photoCount - 1),
                  max 0 (sess.totalSize - photo.blobSize)⟩)
    ∧ (∀ s, ReachableStore s → ∀ id sess, s.sessions id = some sess →
        0 ≤ sess.photoCount ∧ 0 ≤ sess.totalSize) := by
  refine ⟨?_, ?_, ?_⟩
  · intro s photoId sessionId blobSize sess hp hs
    unfold savePhoto
    rw [hp, hs]
    simp
  · intro s photoId photo sess hp hs
    unfold deletePhoto
    rw [hp]
    dsimp only
    rw [hs]
    constructor
    · simp
    · simp [max_zero_jsOrInt_sub_one]
  · intro s hreach
    induction hreach with
    | init =>
        intro id sess h
        simp [emptyStore] at h
    | create s' id' hr ih =>
        intro id sess h
        unfold createSession at h
        split at h
        · exact ih id sess h
        · simp only at h
          split at h
          · rw [Option.some.injEq] at h
            subst h
            exact ⟨le_refl 0, le_refl 0⟩
          · exact ih id sess h
    | save s' photoId sessionId blobSize hr ih =>
        intro id sess h
        unfold savePhoto at h
        split at h
        · exact ih id sess h
        · split at h
          · exact ih id sess h
          · rename_i hsess
            simp only at h
            split at h
            · rw [Option.some.injEq] at h
              subst h
              have hold := ih _ _ hsess
              constructor
              · simp only [jsOrInt_zero]
                omega
              · simp only [jsOrInt_zero]
                have : (0 : ℤ) ≤ (blobSize : ℤ) := Int.natCast_nonneg _
                omega
            · exact ih id sess h
    | del s' photoId hr ih =>
        intro id sess h
        unfold deletePhoto at h
        split at h
        · exact ih id sess h
        · split at h
          · exact ih id sess h
          · simp only at h
            split at h
            · rw [Option.some.injEq] at h
              subst h
              exact ⟨le_max_left 0 _, le_max_left 0 _⟩
            · exact ih id sess h

/-- Witness for `storage_bookkeeping`: create a session, save a 100-byte
photo, delete it again; the counters go `0 → 1/100 → 0/0` and stay
non-negative. -/
theorem storage_bookkeeping_witness :
    (savePhoto (createSession emptyStore "s1") "p1" "s1" 100).sessions "s1"
      = some ⟨0 + 1, 0 + (100 : ℕ)⟩
    ∧ (deletePhoto (savePhoto (createSession emptyStore "s1") "p1" "s1" 100)
        "p1").photos "p1" = none
    ∧ (0 : ℤ) ≤ (0 : ℤ) ∧ (0 : ℤ) ≤ (0 : ℤ) :=
  have h1 := storage_bookkeeping.1 (createSession emptyStore "s1") "p1" "s1"
    100 ⟨0, 0⟩ rfl rfl
  have h2 := storage_bookkeeping.2.1
    (savePhoto (createSession emptyStore "s1") "p1" "s1" 100) "p1"
    ⟨"s1", 100⟩ ⟨1, 100⟩ rfl (by rfl)
  have h3 := storage_bookkeeping.2.2 (createSession emptyStore "s1")
    (.create emptyStore "s1" .init) "s1" ⟨0, 0⟩ rfl
  ⟨h1, h2.1, h3⟩
